import Mathlib

/-!
# Taxes form (`src/src/App.jsx`): validation schema and submit workflow

The component validates ten raw field values with `formSchema` (a `zod` object
schema run through `zodResolver` by `react-hook-form`) and, when validation
succeeds, runs `onSubmit`: one toast, `setIsLoading(true)`, and a 5000 ms timer
whose callback is `setIsLoading(false)`.

The embedding below follows the source expression by expression.  The JavaScript
built-in `Number` and the `zod` / `zodResolver` / `handleSubmit` behaviour the
source relies on are written out as Lean functions:

* `Number` on text is ECMAScript `StringToNumber` (trim, empty text is `0`,
  decimal / hex / octal / binary literals, `Infinity`, otherwise `NaN`), with
  the mathematical value rounded to the nearest binary64 value, ties to even;
* `zodResolver(formSchema)` is called with its default options, so it runs the
  schema's `parseAsync`: the keys whose schema is a plain `z.string`/`z.enum`
  report their issues while the object is walked, and the three `z.preprocess`
  keys report theirs afterwards, each group in key order;
* `zod` is the v3 line in which the `message` option handed to `z.enum` is
  used for every issue of that schema (3.23 and later); type errors of
  `z.string()` and `z.number()` carry the default error map's messages;
* JavaScript strings are Lean strings, their `length` counted in UTF-16 code
  units.
-/

namespace TaxForm

/-! ## JavaScript values -/

/-- A JavaScript number: `NaN`, an infinity, or a finite binary64 value written
as sign and reduced fraction `num / den` (`den` a power of two).  The two zeros
are `fin false 0 1` and `fin true 0 1`. -/
inductive JSNumber where
  | nan
  | inf (neg : Bool)
  | fin (neg : Bool) (num : Nat) (den : Nat)
deriving DecidableEq, Repr

/-- JavaScript `x < 0` on numbers (false for `NaN` and for both zeros). -/
def JSNumber.ltZero : JSNumber → Bool
  | .nan => false
  | .inf neg => neg
  | .fin neg num _ => neg && num != 0

/-- JavaScript `Number.isNaN`. -/
def JSNumber.isNaN : JSNumber → Bool
  | .nan => true
  | _ => false

/-- The values a form field or a schema stage can hold. -/
inductive JSValue where
  | undefined
  | string (s : String)
  | number (n : JSNumber)
deriving DecidableEq, Repr

/-- JavaScript `s.length`: the number of UTF-16 code units. -/
def jsLength (s : String) : Nat :=
  (s.data.map fun c => if c.toNat < 65536 then 1 else 2).sum

/-! ## `Number(val)` -/

/-- ECMAScript `StrWhiteSpaceChar`: white space and line terminators. -/
def isStrWhiteSpaceChar (c : Char) : Bool :=
  let n := c.toNat
  n == 0x09 || n == 0x0A || n == 0x0B || n == 0x0C || n == 0x0D || n == 0x20 ||
  n == 0xA0 || n == 0x1680 || (0x2000 ≤ n && n ≤ 0x200A) || n == 0x2028 ||
  n == 0x2029 || n == 0x202F || n == 0x205F || n == 0x3000 || n == 0xFEFF

/-- Strip leading and trailing `StrWhiteSpaceChar`s. -/
def trimStrWhiteSpace (cs : List Char) : List Char :=
  ((cs.dropWhile isStrWhiteSpaceChar).reverse.dropWhile isStrWhiteSpaceChar).reverse

/-- Value of a digit in bases up to 16, `none` for any other character. -/
def digitValue (c : Char) : Option Nat :=
  let n := c.toNat
  if 48 ≤ n ∧ n ≤ 57 then some (n - 48)
  else if 97 ≤ n ∧ n ≤ 102 then some (n - 87)
  else if 65 ≤ n ∧ n ≤ 70 then some (n - 55)
  else none

/-- Whether `c` is a digit of the given base. -/
def isDigitOf (base : Nat) (c : Char) : Bool :=
  match digitValue c with
  | some d => decide (d < base)
  | none => false

/-- Mathematical value of a digit string in the given base. -/
def digitsValue (base : Nat) : List Char → Nat → Nat
  | [], acc => acc
  | c :: cs, acc => digitsValue base cs (acc * base + (digitValue c).getD 0)

/-- Number of binary digits of `n`; `fuel` bounds the recursion (`fuel = n` suffices). -/
def bitLength : Nat → Nat → Nat
  | 0, _ => 0
  | fuel + 1, n => if n = 0 then 0 else bitLength fuel (n / 2) + 1

/-- Whether `2 ^ k ≤ n / d`, for an integer exponent `k`. -/
def geTwoPow (n d : Nat) (k : Int) : Bool :=
  if 0 ≤ k then decide (d * 2 ^ k.toNat ≤ n) else decide (d ≤ n * 2 ^ (-k).toNat)

/-- Reduce `m / 2 ^ k` to lowest terms. -/
def reduceDyadic : Nat → Nat → Nat × Nat
  | m, 0 => (m, 1)
  | m, k + 1 => if m % 2 = 0 then reduceDyadic (m / 2) k else (m, 2 ^ (k + 1))

/-- The binary64 value nearest to `± n / d` (`d > 0`), ties to even: 53-bit
significand, least exponent `-1074`, overflow to infinity from `2 ^ 1024`. -/
def toDouble (neg : Bool) (n d : Nat) : JSNumber :=
  if n = 0 then .fin neg 0 1 else
  let e0 : Int := (bitLength n n : Int) - (bitLength d d : Int)
  let e : Int := if geTwoPow n d e0 then e0 else e0 - 1
  let q : Int := max (e - 52) (-1074)
  let a : Nat := if 0 ≤ q then n else n * 2 ^ (-q).toNat
  let b : Nat := if 0 ≤ q then d * 2 ^ q.toNat else d
  let m0 : Nat := a / b
  let r : Nat := a % b
  let m : Nat := if b < 2 * r ∨ (2 * r = b ∧ m0 % 2 = 1) then m0 + 1 else m0
  if 0 ≤ q then
    if 2 ^ 1024 ≤ m * 2 ^ q.toNat then .inf neg else .fin neg (m * 2 ^ q.toNat) 1
  else
    let p := reduceDyadic m (-q).toNat
    .fin neg p.1 p.2

/-- The `ExponentPart_opt` that must end a decimal literal: nothing, or `e`/`E`,
an optional sign and at least one digit.  Returns the exponent. -/
def parseExponentPart : List Char → Option Int
  | [] => some 0
  | c :: rest =>
    if c = 'e' ∨ c = 'E' then
      match rest with
      | '+' :: ds => if ds ≠ [] ∧ ds.all (isDigitOf 10) then some (digitsValue 10 ds 0) else none
      | '-' :: ds => if ds ≠ [] ∧ ds.all (isDigitOf 10) then some (-(digitsValue 10 ds 0 : Int)) else none
      | ds => if ds ≠ [] ∧ ds.all (isDigitOf 10) then some (digitsValue 10 ds 0) else none
    else none

/-- `StrUnsignedDecimalLiteral`: `Infinity`, `digits . digits? exp?`,
`. digits exp?` or `digits exp?`. -/
def parseUnsignedDecimal (neg : Bool) (cs : List Char) : JSNumber :=
  if cs = "Infinity".data then .inf neg else
  let intPart := cs.takeWhile (isDigitOf 10)
  let rest := cs.dropWhile (isDigitOf 10)
  let fracPart := match rest with
    | '.' :: r => r.takeWhile (isDigitOf 10)
    | _ => []
  let tail := match rest with
    | '.' :: r => r.dropWhile (isDigitOf 10)
    | r => r
  if intPart = [] ∧ fracPart = [] then .nan else
  match parseExponentPart tail with
  | none => .nan
  | some e =>
    let m := digitsValue 10 (intPart ++ fracPart) 0
    let e10 : Int := e - fracPart.length
    if 0 ≤ e10 then toDouble neg (m * 10 ^ e10.toNat) 1
    else toDouble neg m (10 ^ (-e10).toNat)

/-- `NonDecimalIntegerLiteral` body: at least one digit of the base, nothing else. -/
def parseNonDecimal (base : Nat) (ds : List Char) : JSNumber :=
  if ds ≠ [] ∧ ds.all (isDigitOf base) then toDouble false (digitsValue base ds 0) 1 else .nan

/-- ECMAScript `StringToNumber`. -/
def StringToNumber (s : String) : JSNumber :=
  match trimStrWhiteSpace s.data with
  | [] => .fin false 0 1
  | '0' :: 'x' :: ds => parseNonDecimal 16 ds
  | '0' :: 'X' :: ds => parseNonDecimal 16 ds
  | '0' :: 'o' :: ds => parseNonDecimal 8 ds
  | '0' :: 'O' :: ds => parseNonDecimal 8 ds
  | '0' :: 'b' :: ds => parseNonDecimal 2 ds
  | '0' :: 'B' :: ds => parseNonDecimal 2 ds
  | '+' :: cs => parseUnsignedDecimal false cs
  | '-' :: cs => parseUnsignedDecimal true cs
  | cs => parseUnsignedDecimal false cs

/-- JavaScript `Number(val)`, the function handed to `z.preprocess`. -/
def Number : JSValue → JSNumber
  | .undefined => .nan
  | .string s => StringToNumber s
  | .number n => n

/-! ## The parts of zod used by `formSchema` -/

/-- What a schema hands to `addIssueToContext`: the issue code and the message
chosen by the error maps.  The path is attached by the enclosing object. -/
structure IssueData where
  code : String
  message : String
deriving DecidableEq, Repr

/-- A `ZodIssue` as found in `ZodError.errors`. -/
structure ZodIssue where
  code : String
  path : List String
  message : String
deriving DecidableEq, Repr

/-- A schema: parses a value into typed data or stops with an issue. -/
abbrev ZodType (α : Type) := JSValue → Except IssueData α

/-- The `getParsedType` of zod, on the values of this model. -/
def getParsedType : JSValue → String
  | .undefined => "undefined"
  | .string _ => "string"
  | .number .nan => "nan"
  | .number _ => "number"

/-- Message of the default error map for an `invalid_type` issue. -/
def invalidTypeMessage (expected : String) (data : JSValue) : String :=
  if getParsedType data = "undefined" then "Required"
  else "Expected " ++ expected ++ ", received " ++ getParsedType data

/-- The schema `z.string()`: no parameters, so type errors use the default error map. -/
def z.string : ZodType String := fun data =>
  match data with
  | .string s => .ok s
  | _ => .error ⟨"invalid_type", invalidTypeMessage "string" data⟩

/-- The check `.min(minLength, { message })` on a string schema: `data.length < minLength`
raises `too_small` with the given message. -/
def ZodType.min (schema : ZodType String) (minLength : Nat) (message : String) :
    ZodType String := fun data =>
  match schema data with
  | .ok s => if jsLength s < minLength then .error ⟨"too_small", message⟩ else .ok s
  | .error issue => .error issue

/-- The check `.nonempty({ message })`, which zod defines as `.min(1, { message })`. -/
def ZodType.nonempty (schema : ZodType String) (message : String) : ZodType String :=
  schema.min 1 message

/-- The schema `z.number()`: a `NaN` is not of type number. -/
def z.number : ZodType JSNumber := fun data =>
  match data with
  | .number n =>
    if n.isNaN then .error ⟨"invalid_type", invalidTypeMessage "number" data⟩ else .ok n
  | _ => .error ⟨"invalid_type", invalidTypeMessage "number" data⟩

/-- The check `.nonnegative({ message })` on a number schema: `data < 0` raises `too_small`
with the given message. -/
def ZodType.nonnegative (schema : ZodType JSNumber) (message : String) :
    ZodType JSNumber := fun data =>
  match schema data with
  | .ok n => if n.ltZero then .error ⟨"too_small", message⟩ else .ok n
  | .error issue => .error issue

/-- The schema `z.preprocess(f, schema)`: `schema` parses `f(data)`. -/
def z.preprocess {α : Type} (f : JSValue → JSValue) (schema : ZodType α) : ZodType α :=
  fun data => schema (f data)

/-- The schema `z.enum(values, { message })`: the message is the one reported both when
the value is not a string and when it is a string outside `values`. -/
def z.enum (values : List String) (message : String) : ZodType String := fun data =>
  match data with
  | .string s => if s ∈ values then .ok s else .error ⟨"invalid_enum_value", message⟩
  | _ => .error ⟨"invalid_type", message⟩

/-! ## `formSchema` -/

/-- Raw field values held by the form: `none` is `undefined` (a field that was never
edited), `some s` the text of the control. -/
structure FormInput where
  name : Option String
  grossSalary : Option String
  city : Option String
  state : Option String
  ageGroup : Option String
  investmentRisk : Option String
  monthlyRent : Option String
  pension : Option String
  investmentSpecific : Option String
  financialCondition : Option String
deriving DecidableEq, Repr

/-- The typed record produced by a successful parse. -/
structure ValidatedRecord where
  name : String
  grossSalary : JSNumber
  city : String
  state : String
  ageGroup : String
  investmentRisk : String
  monthlyRent : JSNumber
  pension : JSNumber
  investmentSpecific : String
  financialCondition : String
deriving DecidableEq, Repr

/-- The JavaScript value of a raw field. -/
def fieldValue : Option String → JSValue
  | none => .undefined
  | some s => .string s

/-- The shape of the object schema: one schema per key. -/
structure FormSchema where
  name : ZodType String
  grossSalary : ZodType JSNumber
  city : ZodType String
  state : ZodType String
  ageGroup : ZodType String
  investmentRisk : ZodType String
  monthlyRent : ZodType JSNumber
  pension : ZodType JSNumber
  investmentSpecific : ZodType String
  financialCondition : ZodType String

/-- The constant `formSchema` of `App.jsx`, lines 14-46. -/
def formSchema : FormSchema where
  name := z.string.min 2 "Name must be at least 2 characters."
  grossSalary :=
    z.preprocess (fun val => .number (Number val))
      (z.number.nonnegative "Gross Salary must be a positive number.")
  city := z.string.nonempty "City is required."
  state := z.string.nonempty "State is required."
  ageGroup := z.enum ["0-60", "60-80", "80+"] "Age group is required."
  investmentRisk := z.enum ["Low", "Medium", "High"] "Investment risk is required."
  monthlyRent :=
    z.preprocess (fun val => .number (Number val))
      (z.number.nonnegative "Monthly Rent must be a positive number.")
  pension :=
    z.preprocess (fun val => .number (Number val))
      (z.number.nonnegative "Pension must be a positive number.")
  investmentSpecific := z.string.nonempty "Investment Specific is required."
  financialCondition := z.string.nonempty "Financial Condition is required."

/-- The keys of `formSchema`, in declaration order. -/
def fieldNames : List String :=
  ["name", "grossSalary", "city", "state", "ageGroup", "investmentRisk", "monthlyRent",
   "pension", "investmentSpecific", "financialCondition"]

/-- The issues a key contributes to the object parse: none when its value parsed, else
the schema's issue with the key as path. -/
def issueAt {α : Type} (key : String) : Except IssueData α → List ZodIssue
  | .ok _ => []
  | .error issue => [⟨issue.code, [key], issue.message⟩]

/-- The order in which the keys report their issues under `parseAsync`: the seven keys
with a plain schema first, then the three `z.preprocess` keys, whose inner parse runs in a
later microtask. -/
def reportOrder : List String :=
  ["name", "city", "state", "ageGroup", "investmentRisk", "investmentSpecific",
   "financialCondition", "grossSalary", "monthlyRent", "pension"]

/-- The method `parseAsync` of the object schema, as run by the resolver: every key is
parsed, the data is returned only when every key parsed, and otherwise all issues are
returned, those of the plain keys first and those of the `z.preprocess` keys after them. -/
def FormSchema.parseAsync (schema : FormSchema) (data : FormInput) :
    Except (List ZodIssue) ValidatedRecord :=
  let name := schema.name (fieldValue data.name)
  let grossSalary := schema.grossSalary (fieldValue data.grossSalary)
  let city := schema.city (fieldValue data.city)
  let state := schema.state (fieldValue data.state)
  let ageGroup := schema.ageGroup (fieldValue data.ageGroup)
  let investmentRisk := schema.investmentRisk (fieldValue data.investmentRisk)
  let monthlyRent := schema.monthlyRent (fieldValue data.monthlyRent)
  let pension := schema.pension (fieldValue data.pension)
  let investmentSpecific := schema.investmentSpecific (fieldValue data.investmentSpecific)
  let financialCondition := schema.financialCondition (fieldValue data.financialCondition)
  match name, grossSalary, city, state, ageGroup, investmentRisk, monthlyRent, pension,
    investmentSpecific, financialCondition with
  | .ok a, .ok b, .ok c, .ok d, .ok e, .ok f, .ok g, .ok h, .ok i, .ok j =>
    .ok ⟨a, b, c, d, e, f, g, h, i, j⟩
  | _, _, _, _, _, _, _, _, _, _ =>
    .error (issueAt "name" name ++ issueAt "city" city ++ issueAt "state" state ++
      issueAt "ageGroup" ageGroup ++ issueAt "investmentRisk" investmentRisk ++
      issueAt "investmentSpecific" investmentSpecific ++
      issueAt "financialCondition" financialCondition ++
      issueAt "grossSalary" grossSalary ++ issueAt "monthlyRent" monthlyRent ++
      issueAt "pension" pension)

/-! ## `zodResolver` and `handleSubmit` -/

/-- An entry of `formState.errors`. -/
structure FieldError where
  message : String
  type : String
deriving DecidableEq, Repr

/-- The helper `parseErrorSchema` of the resolver: the first issue of each path becomes
that path's entry. -/
def parseErrorSchema : List ZodIssue → List (String × FieldError) → List (String × FieldError)
  | [], errors => errors
  | issue :: rest, errors =>
    let path := ".".intercalate issue.path
    if path ∈ errors.map Prod.fst then parseErrorSchema rest errors
    else parseErrorSchema rest (errors ++ [(path, ⟨issue.message, issue.code⟩)])

/-- What the resolver returns: `values` is `none` for the empty object. -/
structure ResolverResult where
  values : Option ValidatedRecord
  errors : List (String × FieldError)
deriving DecidableEq, Repr

/-- The resolver `zodResolver(schema)` with its default options: it runs `parseAsync` and
returns the parsed data and no errors, or no data and the error mapping. -/
def zodResolver (schema : FormSchema) (values : FormInput) : ResolverResult :=
  match schema.parseAsync values with
  | .ok data => ⟨some data, []⟩
  | .error issues => ⟨none, parseErrorSchema issues []⟩

/-- The text rendered under a field: `errors[key].message` when the entry exists. -/
def errorMessage (errors : List (String × FieldError)) (key : String) : Option String :=
  (errors.lookup key).map FieldError.message

/-- The entry a key contributes to the error mapping: none when its value parsed. -/
def entryOf {α : Type} (key : String) : Except IssueData α → List (String × FieldError)
  | .ok _ => []
  | .error issue => [(key, ⟨issue.message, issue.code⟩)]

/-! ## Component state and `onSubmit` -/

/-- The callbacks handed to `setTimeout`; the component has one, `() => setIsLoading(false)`. -/
inductive TimerCallback where
  | setIsLoadingFalse
deriving DecidableEq, Repr

/-- State of the mounted component: a clock in milliseconds, the `isLoading` flag, the
toasts emitted so far, the pending timers (due time and callback) and `formState.errors`. -/
structure AppState where
  now : Nat
  isLoading : Bool
  toasts : List String
  timers : List (Nat × TimerCallback)
  errors : List (String × FieldError)
deriving DecidableEq, Repr

/-- State after mounting: `useState(false)`, nothing emitted, nothing pending. -/
def AppState.init : AppState := ⟨0, false, [], [], []⟩

/-- The call `toast({ description })`. -/
def toast (description : String) (s : AppState) : AppState :=
  { s with toasts := s.toasts ++ [description] }

/-- The state setter `setIsLoading`. -/
def setIsLoading (value : Bool) (s : AppState) : AppState :=
  { s with isLoading := value }

/-- The call `setTimeout(callback, delay)`: the callback becomes pending, due `delay`
milliseconds from now. -/
def setTimeout (callback : TimerCallback) (delay : Nat) (s : AppState) : AppState :=
  { s with timers := s.timers ++ [(s.now + delay, callback)] }

/-- The handler `onSubmit` of `App.jsx`, lines 60-72 (the `console.log` calls have no
effect on the state). -/
def onSubmit (_data : ValidatedRecord) (s : AppState) : AppState :=
  setTimeout .setIsLoadingFalse 5000 (setIsLoading true (toast "Form submitted successfully!" s))

/-- The wrapper `handleSubmit(onValid)` of react-hook-form: run the resolver, store its
errors, and call `onValid` with the parsed values only when there are no errors. -/
def handleSubmit (onValid : ValidatedRecord → AppState → AppState) (values : FormInput)
    (s : AppState) : AppState :=
  let result := zodResolver formSchema values
  let s1 := { s with errors := result.errors }
  match result.errors, result.values with
  | [], some data => onValid data s1
  | _, _ => s1

/-- Run a timer callback. -/
def TimerCallback.run : TimerCallback → AppState → AppState
  | .setIsLoadingFalse, s => setIsLoading false s

/-- Let the clock reach `t`: every pending timer due by then runs, in order, and is
removed; the others stay pending. -/
def AppState.advanceTo (s : AppState) (t : Nat) : AppState :=
  let due := s.timers.filter fun timer => timer.1 ≤ t
  let s1 := { s with now := max s.now t, timers := s.timers.filter fun timer => t < timer.1 }
  due.foldl (fun acc timer => timer.2.run acc) s1

/-- What can happen to the mounted form: the form is submitted with the given field
values, or time passes. -/
inductive Event where
  | submit (values : FormInput)
  | wait (ms : Nat)
deriving Repr

/-- One event: a submit goes through `handleSubmit(onSubmit)`, a wait moves the clock. -/
def step (s : AppState) : Event → AppState
  | .submit values => handleSubmit onSubmit values s
  | .wait ms => s.advanceTo (s.now + ms)

/-- A sequence of events from a state. -/
def run (s : AppState) (events : List Event) : AppState :=
  events.foldl step s

/-! ## The field rules as the specification words them -/

/-- Rule of `name`: a string of length at least 2. -/
def nameRule : Option String → Bool
  | some s => decide (2 ≤ jsLength s)
  | none => false

/-- Rule of `grossSalary`, `monthlyRent` and `pension`: the value coerces to a
non-negative number. -/
def numericRule (v : Option String) : Bool :=
  !(Number (fieldValue v)).isNaN && !(Number (fieldValue v)).ltZero

/-- Rule of `city`, `state`, `investmentSpecific` and `financialCondition`: a non-empty
string. -/
def requiredRule : Option String → Bool
  | some s => decide (s ≠ "")
  | none => false

/-- Rule of `ageGroup`: one of the three literal values. -/
def ageGroupRule : Option String → Bool
  | some s => decide (s = "0-60" ∨ s = "60-80" ∨ s = "80+")
  | none => false

/-- Rule of `investmentRisk`: one of the three literal values. -/
def investmentRiskRule : Option String → Bool
  | some s => decide (s = "Low" ∨ s = "Medium" ∨ s = "High")
  | none => false

/-- Whether the raw value `v`, stored under `key`, passes the rule of that key. -/
def fieldRule (key : String) (v : Option String) : Bool :=
  if key = "name" then nameRule v
  else if key = "grossSalary" then numericRule v
  else if key = "city" then requiredRule v
  else if key = "state" then requiredRule v
  else if key = "ageGroup" then ageGroupRule v
  else if key = "investmentRisk" then investmentRiskRule v
  else if key = "monthlyRent" then numericRule v
  else if key = "pension" then numericRule v
  else if key = "investmentSpecific" then requiredRule v
  else if key = "financialCondition" then requiredRule v
  else true

/-- Every one of the ten fields passes its own rule. -/
def allRules (data : FormInput) : Bool :=
  nameRule data.name && numericRule data.grossSalary && requiredRule data.city &&
  requiredRule data.state && ageGroupRule data.ageGroup &&
  investmentRiskRule data.investmentRisk && numericRule data.monthlyRent &&
  numericRule data.pension && requiredRule data.investmentSpecific &&
  requiredRule data.financialCondition

/-- The input of the end-to-end example. -/
def exampleInput : FormInput where
  name := some "Jo"
  grossSalary := some "50000"
  city := some "X"
  state := some "Y"
  ageGroup := some "0-60"
  investmentRisk := some "Low"
  monthlyRent := some "1000"
  pension := some "0"
  investmentSpecific := some "stocks"
  financialCondition := some "stable"

/-- The raw value stored under a key of the input. -/
def FormInput.get (data : FormInput) (key : String) : Option String :=
  if key = "name" then data.name
  else if key = "grossSalary" then data.grossSalary
  else if key = "city" then data.city
  else if key = "state" then data.state
  else if key = "ageGroup" then data.ageGroup
  else if key = "investmentRisk" then data.investmentRisk
  else if key = "monthlyRent" then data.monthlyRent
  else if key = "pension" then data.pension
  else if key = "investmentSpecific" then data.investmentSpecific
  else if key = "financialCondition" then data.financialCondition
  else none

/-- The issue of a parse result, if it has one. -/
def issueOf {α : Type} : Except IssueData α → Option IssueData
  | .ok _ => none
  | .error issue => some issue

/-- The issue the schema of `key` raises on the raw value `v`, if any. -/
def fieldIssue (key : String) (v : Option String) : Option IssueData :=
  if key = "name" then issueOf (formSchema.name (fieldValue v))
  else if key = "grossSalary" then issueOf (formSchema.grossSalary (fieldValue v))
  else if key = "city" then issueOf (formSchema.city (fieldValue v))
  else if key = "state" then issueOf (formSchema.state (fieldValue v))
  else if key = "ageGroup" then issueOf (formSchema.ageGroup (fieldValue v))
  else if key = "investmentRisk" then issueOf (formSchema.investmentRisk (fieldValue v))
  else if key = "monthlyRent" then issueOf (formSchema.monthlyRent (fieldValue v))
  else if key = "pension" then issueOf (formSchema.pension (fieldValue v))
  else if key = "investmentSpecific" then issueOf (formSchema.investmentSpecific (fieldValue v))
  else if key = "financialCondition" then issueOf (formSchema.financialCondition (fieldValue v))
  else none

/-- The message configured on the rule of `key` in `formSchema`. -/
def configuredMessage (key : String) : String :=
  if key = "name" then "Name must be at least 2 characters."
  else if key = "grossSalary" then "Gross Salary must be a positive number."
  else if key = "city" then "City is required."
  else if key = "state" then "State is required."
  else if key = "ageGroup" then "Age group is required."
  else if key = "investmentRisk" then "Investment risk is required."
  else if key = "monthlyRent" then "Monthly Rent must be a positive number."
  else if key = "pension" then "Pension must be a positive number."
  else if key = "investmentSpecific" then "Investment Specific is required."
  else if key = "financialCondition" then "Financial Condition is required."
  else ""

/-! ## Schemas in closed form -/

theorem string_min_eval (minLength : Nat) (message : String) (v : Option String) :
    (z.string.min minLength message) (fieldValue v) =
      match v with
      | none => .error ⟨"invalid_type", "Required"⟩
      | some s => if jsLength s < minLength then .error ⟨"too_small", message⟩ else .ok s := by
  cases v <;> rfl

theorem string_nonempty_eval (message : String) (v : Option String) :
    (z.string.nonempty message) (fieldValue v) =
      match v with
      | none => .error ⟨"invalid_type", "Required"⟩
      | some s => if jsLength s < 1 then .error ⟨"too_small", message⟩ else .ok s :=
  string_min_eval 1 message v

theorem numeric_eval (message : String) (v : Option String) :
    (z.preprocess (fun val => .number (Number val)) (z.number.nonnegative message))
        (fieldValue v) =
      if (Number (fieldValue v)).isNaN then
        .error ⟨"invalid_type", "Expected number, received nan"⟩
      else if (Number (fieldValue v)).ltZero then .error ⟨"too_small", message⟩
      else .ok (Number (fieldValue v)) := by
  simp only [z.preprocess, ZodType.nonnegative, z.number]
  cases h : Number (fieldValue v) <;> simp [JSNumber.isNaN]
  rfl

theorem enum_eval (values : List String) (message : String) (v : Option String) :
    (z.enum values message) (fieldValue v) =
      match v with
      | none => .error ⟨"invalid_type", message⟩
      | some s => if s ∈ values then .ok s else .error ⟨"invalid_enum_value", message⟩ := by
  cases v <;> rfl

theorem jsLength_lt_one (s : String) : jsLength s < 1 ↔ s = "" := by
  rcases s with ⟨cs⟩
  cases cs with
  | nil => simp [jsLength]
  | cons c cs =>
    have h : (⟨c :: cs⟩ : String) ≠ "" := by
      intro h
      have := congrArg String.data h
      simp at this
    simp only [h, iff_false, not_lt]
    simp only [jsLength, List.map_cons, List.sum_cons]
    split <;> omega

/-! ## The error mapping in closed form -/

theorem entryOf_eq_nil {α : Type} (key : String) (r : Except IssueData α) :
    entryOf key r = [] ↔ ∃ a, r = .ok a := by
  cases r <;> simp [entryOf]

theorem mem_keys_entryOf {α : Type} (k key : String) (r : Except IssueData α) :
    k ∈ (entryOf key r).map Prod.fst ↔ k = key ∧ ∃ issue, r = .error issue := by
  cases r <;> simp [entryOf]

theorem pair_mem_entryOf {α : Type} (k key : String) (x : FieldError)
    (r : Except IssueData α) :
    (k, x) ∈ entryOf key r ↔ k = key ∧ ∃ issue, r = .error issue ∧ x = ⟨issue.message, issue.code⟩ := by
  cases r <;> simp [entryOf]

theorem lookup_entryOf {α : Type} (k key : String) (r : Except IssueData α) :
    (entryOf key r).lookup k =
      if k = key then (issueOf r).map fun issue => ⟨issue.message, issue.code⟩ else none := by
  cases r with
  | ok a => simp [entryOf, issueOf]
  | error issue =>
    by_cases h : k = key
    · subst h
      simp [entryOf, issueOf, List.lookup]
    · have hb : (k == key) = false := by simpa using h
      simp [entryOf, issueOf, List.lookup, hb, h]

theorem lookup_append_or {β : Type} (k : String) (l1 l2 : List (String × β)) :
    (l1 ++ l2).lookup k = (l1.lookup k).or (l2.lookup k) := by
  induction l1 with
  | nil => simp
  | cons p l ih =>
    rcases p with ⟨a, b⟩
    by_cases h : k == a
    · simp [List.lookup, h]
    · have hb : (k == a) = false := by simpa using h
      simp [List.lookup, hb, ih]

theorem keys_entryOf {α : Type} (key : String) (r : Except IssueData α) (b : Bool)
    (h : (∃ a, r = .ok a) ↔ b = true) :
    (entryOf key r).map Prod.fst = if !b then [key] else [] := by
  cases r with
  | ok a =>
    have hb : b = true := h.1 ⟨a, rfl⟩
    simp [entryOf, hb]
  | error issue =>
    have hb : b = false := by
      cases b with
      | false => rfl
      | true =>
        obtain ⟨a, ha⟩ := h.2 rfl
        cases ha
    simp [entryOf, hb]

theorem filter_cons_append {β : Type} (p : β → Bool) (a : β) (l : List β) :
    (a :: l).filter p = (if p a then [a] else []) ++ l.filter p := by
  by_cases h : p a <;> simp [List.filter_cons, h]

theorem parseErrorSchema_issueAt {α : Type} (key : String) (r : Except IssueData α)
    (rest : List ZodIssue) (acc : List (String × FieldError))
    (h : key ∉ acc.map Prod.fst) :
    parseErrorSchema (issueAt key r ++ rest) acc = parseErrorSchema rest (acc ++ entryOf key r) := by
  cases r with
  | ok a => simp [issueAt, entryOf]
  | error issue =>
    have hp : ".".intercalate [key] = key := rfl
    simp only [issueAt, entryOf, List.singleton_append, parseErrorSchema, hp]
    rw [if_neg h]
    rfl

theorem parseErrorSchema_issueAt_last {α : Type} (key : String) (r : Except IssueData α)
    (acc : List (String × FieldError)) (h : key ∉ acc.map Prod.fst) :
    parseErrorSchema (issueAt key r) acc = acc ++ entryOf key r := by
  have := parseErrorSchema_issueAt key r [] acc h
  simpa [parseErrorSchema] using this

/-- Outcome of the object parse: either every key parsed and the data is the record of
the ten parsed values, or some key did not parse and the issues of all keys are returned. -/
theorem parseAsync_cases (data : FormInput) :
    (∃ r : ValidatedRecord, formSchema.parseAsync data = .ok r ∧
      formSchema.name (fieldValue data.name) = .ok r.name ∧
      formSchema.grossSalary (fieldValue data.grossSalary) = .ok r.grossSalary ∧
      formSchema.city (fieldValue data.city) = .ok r.city ∧
      formSchema.state (fieldValue data.state) = .ok r.state ∧
      formSchema.ageGroup (fieldValue data.ageGroup) = .ok r.ageGroup ∧
      formSchema.investmentRisk (fieldValue data.investmentRisk) = .ok r.investmentRisk ∧
      formSchema.monthlyRent (fieldValue data.monthlyRent) = .ok r.monthlyRent ∧
      formSchema.pension (fieldValue data.pension) = .ok r.pension ∧
      formSchema.investmentSpecific (fieldValue data.investmentSpecific) =
        .ok r.investmentSpecific ∧
      formSchema.financialCondition (fieldValue data.financialCondition) =
        .ok r.financialCondition) ∨
    (formSchema.parseAsync data =
        .error (issueAt "name" (formSchema.name (fieldValue data.name)) ++
          issueAt "city" (formSchema.city (fieldValue data.city)) ++
          issueAt "state" (formSchema.state (fieldValue data.state)) ++
          issueAt "ageGroup" (formSchema.ageGroup (fieldValue data.ageGroup)) ++
          issueAt "investmentRisk" (formSchema.investmentRisk (fieldValue data.investmentRisk)) ++
          issueAt "investmentSpecific"
            (formSchema.investmentSpecific (fieldValue data.investmentSpecific)) ++
          issueAt "financialCondition"
            (formSchema.financialCondition (fieldValue data.financialCondition)) ++
          issueAt "grossSalary" (formSchema.grossSalary (fieldValue data.grossSalary)) ++
          issueAt "monthlyRent" (formSchema.monthlyRent (fieldValue data.monthlyRent)) ++
          issueAt "pension" (formSchema.pension (fieldValue data.pension))) ∧
      ¬ ((∃ a, formSchema.name (fieldValue data.name) = .ok a) ∧
        (∃ a, formSchema.grossSalary (fieldValue data.grossSalary) = .ok a) ∧
        (∃ a, formSchema.city (fieldValue data.city) = .ok a) ∧
        (∃ a, formSchema.state (fieldValue data.state) = .ok a) ∧
        (∃ a, formSchema.ageGroup (fieldValue data.ageGroup) = .ok a) ∧
        (∃ a, formSchema.investmentRisk (fieldValue data.investmentRisk) = .ok a) ∧
        (∃ a, formSchema.monthlyRent (fieldValue data.monthlyRent) = .ok a) ∧
        (∃ a, formSchema.pension (fieldValue data.pension) = .ok a) ∧
        (∃ a, formSchema.investmentSpecific (fieldValue data.investmentSpecific) = .ok a) ∧
        (∃ a, formSchema.financialCondition (fieldValue data.financialCondition) = .ok a))) := by
  simp only [FormSchema.parseAsync]
  split
  · rename_i a b c d e f g h i j h1 h2 h3 h4 h5 h6 h7 h8 h9 h10
    exact Or.inl ⟨⟨a, b, c, d, e, f, g, h, i, j⟩, rfl, h1, h2, h3, h4, h5, h6, h7, h8, h9, h10⟩
  · rename_i hne
    refine Or.inr ⟨rfl, ?_⟩
    rintro ⟨⟨a, h1⟩, ⟨b, h2⟩, ⟨c, h3⟩, ⟨d, h4⟩, ⟨e, h5⟩, ⟨f, h6⟩, ⟨g, h7⟩, ⟨h, h8⟩, ⟨i, h9⟩,
      ⟨j, h10⟩⟩
    exact hne a b c d e f g h i j h1 h2 h3 h4 h5 h6 h7 h8 h9 h10

/-- The error mapping of the resolver is the concatenation, in reporting order, of the
entries of the keys that did not parse. -/
theorem resolver_errors_eq (data : FormInput) :
    (zodResolver formSchema data).errors =
      entryOf "name" (formSchema.name (fieldValue data.name)) ++
      entryOf "city" (formSchema.city (fieldValue data.city)) ++
      entryOf "state" (formSchema.state (fieldValue data.state)) ++
      entryOf "ageGroup" (formSchema.ageGroup (fieldValue data.ageGroup)) ++
      entryOf "investmentRisk" (formSchema.investmentRisk (fieldValue data.investmentRisk)) ++
      entryOf "investmentSpecific"
        (formSchema.investmentSpecific (fieldValue data.investmentSpecific)) ++
      entryOf "financialCondition"
        (formSchema.financialCondition (fieldValue data.financialCondition)) ++
      entryOf "grossSalary" (formSchema.grossSalary (fieldValue data.grossSalary)) ++
      entryOf "monthlyRent" (formSchema.monthlyRent (fieldValue data.monthlyRent)) ++
      entryOf "pension" (formSchema.pension (fieldValue data.pension)) := by
  rcases parseAsync_cases data with ⟨r, hr, h1, h2, h3, h4, h5, h6, h7, h8, h9, h10⟩ | ⟨he, -⟩
  · simp [zodResolver, hr, h1, h2, h3, h4, h5, h6, h7, h8, h9, h10, entryOf]
  · simp only [zodResolver, he, List.append_assoc]
    rw [parseErrorSchema_issueAt _ _ _ _ (by simp)]
    rw [parseErrorSchema_issueAt _ _ _ _ (by simp [pair_mem_entryOf])]
    rw [parseErrorSchema_issueAt _ _ _ _ (by simp [pair_mem_entryOf])]
    rw [parseErrorSchema_issueAt _ _ _ _ (by simp [pair_mem_entryOf])]
    rw [parseErrorSchema_issueAt _ _ _ _ (by simp [pair_mem_entryOf])]
    rw [parseErrorSchema_issueAt _ _ _ _ (by simp [pair_mem_entryOf])]
    rw [parseErrorSchema_issueAt _ _ _ _ (by simp [pair_mem_entryOf])]
    rw [parseErrorSchema_issueAt _ _ _ _ (by simp [pair_mem_entryOf])]
    rw [parseErrorSchema_issueAt _ _ _ _ (by simp [pair_mem_entryOf])]
    rw [parseErrorSchema_issueAt_last _ _ _ (by simp [pair_mem_entryOf])]
    simp

/-! ## Each key's schema against its rule -/

theorem name_ok_iff (v : Option String) (a : String) :
    formSchema.name (fieldValue v) = .ok a ↔ v = some a ∧ nameRule v = true := by
  simp only [formSchema, string_min_eval]
  cases v with
  | none => simp [nameRule]
  | some s =>
    by_cases h : jsLength s < 2
    · have h2 : ¬ 2 ≤ jsLength s := by omega
      simp [nameRule, h, h2]
    · have h2 : 2 ≤ jsLength s := by omega
      simp [nameRule, h, h2]

theorem nonempty_ok_iff (message : String) (v : Option String) (a : String) :
    (z.string.nonempty message) (fieldValue v) = .ok a ↔ v = some a ∧ requiredRule v = true := by
  simp only [string_nonempty_eval]
  cases v with
  | none => simp [requiredRule]
  | some s =>
    by_cases h : s = ""
    · subst h
      simp [requiredRule, jsLength]
    · have h1 : ¬ jsLength s < 1 := fun hlt => h ((jsLength_lt_one s).1 hlt)
      simp [requiredRule, h, h1]

theorem numeric_ok_iff (message : String) (v : Option String) (a : JSNumber) :
    (z.preprocess (fun val => .number (Number val)) (z.number.nonnegative message))
        (fieldValue v) = .ok a ↔
      a = Number (fieldValue v) ∧ numericRule v = true := by
  rw [numeric_eval]
  unfold numericRule
  cases h1 : (Number (fieldValue v)).isNaN <;> cases h2 : (Number (fieldValue v)).ltZero <;>
    simp [eq_comm]

theorem ageGroup_ok_iff (v : Option String) (a : String) :
    formSchema.ageGroup (fieldValue v) = .ok a ↔ v = some a ∧ ageGroupRule v = true := by
  simp only [formSchema, enum_eval]
  cases v with
  | none => simp [ageGroupRule]
  | some s =>
    by_cases h : s ∈ ["0-60", "60-80", "80+"]
    · have h2 : s = "0-60" ∨ s = "60-80" ∨ s = "80+" := by simpa using h
      simp [ageGroupRule, h, h2]
    · have h2 : ¬ (s = "0-60" ∨ s = "60-80" ∨ s = "80+") := by simpa using h
      simp [ageGroupRule, h, h2]

theorem investmentRisk_ok_iff (v : Option String) (a : String) :
    formSchema.investmentRisk (fieldValue v) = .ok a ↔
      v = some a ∧ investmentRiskRule v = true := by
  simp only [formSchema, enum_eval]
  cases v with
  | none => simp [investmentRiskRule]
  | some s =>
    by_cases h : s ∈ ["Low", "Medium", "High"]
    · have h2 : s = "Low" ∨ s = "Medium" ∨ s = "High" := by simpa using h
      simp [investmentRiskRule, h, h2]
    · have h2 : ¬ (s = "Low" ∨ s = "Medium" ∨ s = "High") := by simpa using h
      simp [investmentRiskRule, h, h2]

theorem rule_some {rule : Option String → Bool} {v : Option String}
    (hnone : rule none = false) (h : rule v = true) : ∃ s, v = some s := by
  cases v with
  | none => simp [hnone] at h
  | some s => exact ⟨s, rfl⟩

theorem nonempty_parses (message : String) (v : Option String) :
    (∃ a, (z.string.nonempty message) (fieldValue v) = .ok a) ↔ requiredRule v = true := by
  constructor
  · rintro ⟨a, ha⟩
    exact ((nonempty_ok_iff message v a).1 ha).2
  · intro h
    obtain ⟨s, rfl⟩ := rule_some rfl h
    exact ⟨s, (nonempty_ok_iff message _ s).2 ⟨rfl, h⟩⟩

theorem numeric_parses (message : String) (v : Option String) :
    (∃ a, (z.preprocess (fun val => .number (Number val)) (z.number.nonnegative message))
      (fieldValue v) = .ok a) ↔ numericRule v = true := by
  constructor
  · rintro ⟨a, ha⟩
    exact ((numeric_ok_iff message v a).1 ha).2
  · intro h
    exact ⟨_, (numeric_ok_iff message v _).2 ⟨rfl, h⟩⟩

theorem name_parses (v : Option String) :
    (∃ a, formSchema.name (fieldValue v) = .ok a) ↔ nameRule v = true := by
  constructor
  · rintro ⟨a, ha⟩
    exact ((name_ok_iff _ a).1 ha).2
  · intro h
    obtain ⟨s, hs⟩ := rule_some rfl h
    exact ⟨s, (name_ok_iff _ s).2 ⟨hs, h⟩⟩

theorem ageGroup_parses (v : Option String) :
    (∃ a, formSchema.ageGroup (fieldValue v) = .ok a) ↔ ageGroupRule v = true := by
  constructor
  · rintro ⟨a, ha⟩
    exact ((ageGroup_ok_iff _ a).1 ha).2
  · intro h
    obtain ⟨s, hs⟩ := rule_some rfl h
    exact ⟨s, (ageGroup_ok_iff _ s).2 ⟨hs, h⟩⟩

theorem investmentRisk_parses (v : Option String) :
    (∃ a, formSchema.investmentRisk (fieldValue v) = .ok a) ↔ investmentRiskRule v = true := by
  constructor
  · rintro ⟨a, ha⟩
    exact ((investmentRisk_ok_iff _ a).1 ha).2
  · intro h
    obtain ⟨s, hs⟩ := rule_some rfl h
    exact ⟨s, (investmentRisk_ok_iff _ s).2 ⟨hs, h⟩⟩

theorem grossSalary_parses (v : Option String) :
    (∃ a, formSchema.grossSalary (fieldValue v) = .ok a) ↔ numericRule v = true :=
  numeric_parses _ v

theorem monthlyRent_parses (v : Option String) :
    (∃ a, formSchema.monthlyRent (fieldValue v) = .ok a) ↔ numericRule v = true :=
  numeric_parses _ v

theorem pension_parses (v : Option String) :
    (∃ a, formSchema.pension (fieldValue v) = .ok a) ↔ numericRule v = true :=
  numeric_parses _ v

theorem city_parses (v : Option String) :
    (∃ a, formSchema.city (fieldValue v) = .ok a) ↔ requiredRule v = true :=
  nonempty_parses _ v

theorem state_parses (v : Option String) :
    (∃ a, formSchema.state (fieldValue v) = .ok a) ↔ requiredRule v = true :=
  nonempty_parses _ v

theorem investmentSpecific_parses (v : Option String) :
    (∃ a, formSchema.investmentSpecific (fieldValue v) = .ok a) ↔ requiredRule v = true :=
  nonempty_parses _ v

theorem financialCondition_parses (v : Option String) :
    (∃ a, formSchema.financialCondition (fieldValue v) = .ok a) ↔ requiredRule v = true :=
  nonempty_parses _ v

/-- Every key parses exactly when every field passes its rule. -/
theorem all_ok_iff_allRules (data : FormInput) :
    ((∃ a, formSchema.name (fieldValue data.name) = .ok a) ∧
      (∃ a, formSchema.grossSalary (fieldValue data.grossSalary) = .ok a) ∧
      (∃ a, formSchema.city (fieldValue data.city) = .ok a) ∧
      (∃ a, formSchema.state (fieldValue data.state) = .ok a) ∧
      (∃ a, formSchema.ageGroup (fieldValue data.ageGroup) = .ok a) ∧
      (∃ a, formSchema.investmentRisk (fieldValue data.investmentRisk) = .ok a) ∧
      (∃ a, formSchema.monthlyRent (fieldValue data.monthlyRent) = .ok a) ∧
      (∃ a, formSchema.pension (fieldValue data.pension) = .ok a) ∧
      (∃ a, formSchema.investmentSpecific (fieldValue data.investmentSpecific) = .ok a) ∧
      (∃ a, formSchema.financialCondition (fieldValue data.financialCondition) = .ok a)) ↔
    allRules data = true := by
  rw [name_parses, grossSalary_parses, city_parses, state_parses, ageGroup_parses,
    investmentRisk_parses, monthlyRent_parses, pension_parses, investmentSpecific_parses,
    financialCondition_parses]
  simp only [allRules, Bool.and_eq_true, and_assoc]

/-- The resolver result in its two shapes. -/
theorem resolver_cases (data : FormInput) :
    (allRules data = true ∧ ∃ r : ValidatedRecord,
      zodResolver formSchema data = ⟨some r, []⟩ ∧
      formSchema.name (fieldValue data.name) = .ok r.name ∧
      formSchema.grossSalary (fieldValue data.grossSalary) = .ok r.grossSalary ∧
      formSchema.city (fieldValue data.city) = .ok r.city ∧
      formSchema.state (fieldValue data.state) = .ok r.state ∧
      formSchema.ageGroup (fieldValue data.ageGroup) = .ok r.ageGroup ∧
      formSchema.investmentRisk (fieldValue data.investmentRisk) = .ok r.investmentRisk ∧
      formSchema.monthlyRent (fieldValue data.monthlyRent) = .ok r.monthlyRent ∧
      formSchema.pension (fieldValue data.pension) = .ok r.pension ∧
      formSchema.investmentSpecific (fieldValue data.investmentSpecific) =
        .ok r.investmentSpecific ∧
      formSchema.financialCondition (fieldValue data.financialCondition) =
        .ok r.financialCondition) ∨
    (allRules data = false ∧ (zodResolver formSchema data).values = none ∧
      (zodResolver formSchema data).errors ≠ []) := by
  rcases parseAsync_cases data with ⟨r, hr, h1, h2, h3, h4, h5, h6, h7, h8, h9, h10⟩ | ⟨he, hne⟩
  · refine Or.inl ⟨?_, r, ?_, h1, h2, h3, h4, h5, h6, h7, h8, h9, h10⟩
    · exact (all_ok_iff_allRules data).1
        ⟨⟨_, h1⟩, ⟨_, h2⟩, ⟨_, h3⟩, ⟨_, h4⟩, ⟨_, h5⟩, ⟨_, h6⟩, ⟨_, h7⟩, ⟨_, h8⟩, ⟨_, h9⟩,
          ⟨_, h10⟩⟩
    · simp [zodResolver, hr]
  · refine Or.inr ⟨?_, ?_, ?_⟩
    · rw [all_ok_iff_allRules] at hne
      simpa using hne
    · simp [zodResolver, he]
    · intro hnil
      rw [resolver_errors_eq] at hnil
      simp only [List.append_eq_nil, entryOf_eq_nil] at hnil
      obtain ⟨⟨⟨⟨⟨⟨⟨⟨⟨n1, n2⟩, n3⟩, n4⟩, n5⟩, n6⟩, n7⟩, n8⟩, n9⟩, n10⟩ := hnil
      exact hne ⟨n1, n8, n2, n3, n4, n5, n9, n10, n6, n7⟩

/-- The entry stored under a key is the issue that key's own schema raises on that key's
own raw value. -/
theorem lookup_errors (data : FormInput) (key : String) :
    (zodResolver formSchema data).errors.lookup key =
      (fieldIssue key (data.get key)).map fun issue => ⟨issue.message, issue.code⟩ := by
  rw [resolver_errors_eq]
  simp only [lookup_append_or, lookup_entryOf, fieldIssue, FormInput.get]
  by_cases h1 : key = "name"
  · subst h1; simp
  by_cases h2 : key = "grossSalary"
  · subst h2; simp
  by_cases h3 : key = "city"
  · subst h3; simp
  by_cases h4 : key = "state"
  · subst h4; simp
  by_cases h5 : key = "ageGroup"
  · subst h5; simp
  by_cases h6 : key = "investmentRisk"
  · subst h6; simp
  by_cases h7 : key = "monthlyRent"
  · subst h7; simp
  by_cases h8 : key = "pension"
  · subst h8; simp
  by_cases h9 : key = "investmentSpecific"
  · subst h9; simp
  by_cases h10 : key = "financialCondition"
  · subst h10; simp
  simp [h1, h2, h3, h4, h5, h6, h7, h8, h9, h10]

/-- The keys of the error mapping are the keys whose field fails its rule, in reporting
order. -/
theorem keys_errors (data : FormInput) :
    (zodResolver formSchema data).errors.map Prod.fst =
      reportOrder.filter fun key => !fieldRule key (data.get key) := by
  rw [resolver_errors_eq]
  simp only [List.map_append]
  rw [keys_entryOf "name" _ _ (name_parses _),
    keys_entryOf "grossSalary" _ _ (grossSalary_parses _),
    keys_entryOf "city" _ _ (city_parses _),
    keys_entryOf "state" _ _ (state_parses _),
    keys_entryOf "ageGroup" _ _ (ageGroup_parses _),
    keys_entryOf "investmentRisk" _ _ (investmentRisk_parses _),
    keys_entryOf "monthlyRent" _ _ (monthlyRent_parses _),
    keys_entryOf "pension" _ _ (pension_parses _),
    keys_entryOf "investmentSpecific" _ _ (investmentSpecific_parses _),
    keys_entryOf "financialCondition" _ _ (financialCondition_parses _)]
  simp [reportOrder, filter_cons_append, fieldRule, FormInput.get]

theorem mem_reportOrder (key : String) : key ∈ reportOrder ↔ key ∈ fieldNames := by
  simp only [reportOrder, fieldNames, List.mem_cons, List.mem_singleton, List.not_mem_nil,
    or_false]
  tauto

/-- A key is in the error mapping exactly when it is one of the ten keys and its field
fails its rule. -/
theorem mem_keys_errors (data : FormInput) (key : String) :
    key ∈ (zodResolver formSchema data).errors.map Prod.fst ↔
      key ∈ fieldNames ∧ fieldRule key (data.get key) = false := by
  rw [keys_errors, List.mem_filter, mem_reportOrder]
  simp

/-! ## Validation: the claims -/

/-- C1. Validation with `formSchema` is all-or-nothing: the resolver returns either a
complete record together with an empty error mapping, or no record together with a
non-empty error mapping; and it returns a record exactly when every one of the ten fields
passes its own rule. -/
theorem validation_all_or_nothing (data : FormInput) :
    ((∃ r, zodResolver formSchema data = ⟨some r, []⟩) ∨
      ((zodResolver formSchema data).values = none ∧
        (zodResolver formSchema data).errors ≠ [])) ∧
    ((∃ r, (zodResolver formSchema data).values = some r) ↔ allRules data = true) := by
  rcases resolver_cases data with ⟨hall, r, hr, -⟩ | ⟨hall, hv, he⟩
  · refine ⟨Or.inl ⟨r, hr⟩, ?_⟩
    simp [hr, hall]
  · refine ⟨Or.inr ⟨hv, he⟩, ?_⟩
    simp [hv, hall]

/-- C2. When every field satisfies its rule, validation succeeds with no errors, and the
record holds the input's own text in the seven text fields and `Number(text)` in
`grossSalary`, `monthlyRent` and `pension`. -/
theorem valid_input_yields_coerced_record (data : FormInput) (h : allRules data = true) :
    ∃ r, zodResolver formSchema data = ⟨some r, []⟩ ∧
      data.name = some r.name ∧
      (∃ text, data.grossSalary = some text ∧ r.grossSalary = Number (.string text)) ∧
      data.city = some r.city ∧
      data.state = some r.state ∧
      data.ageGroup = some r.ageGroup ∧
      data.investmentRisk = some r.investmentRisk ∧
      (∃ text, data.monthlyRent = some text ∧ r.monthlyRent = Number (.string text)) ∧
      (∃ text, data.pension = some text ∧ r.pension = Number (.string text)) ∧
      data.investmentSpecific = some r.investmentSpecific ∧
      data.financialCondition = some r.financialCondition := by
  have hnum : ∀ (message : String) (v : Option String) (a : JSNumber),
      (z.preprocess (fun val => .number (Number val)) (z.number.nonnegative message))
        (fieldValue v) = .ok a → ∃ text, v = some text ∧ a = Number (.string text) := by
    intro message v a ha
    obtain ⟨hval, hrule⟩ := (numeric_ok_iff message v a).1 ha
    obtain ⟨text, rfl⟩ := @rule_some numericRule v rfl hrule
    exact ⟨text, rfl, hval⟩
  rcases resolver_cases data with
    ⟨-, r, hr, h1, h2, h3, h4, h5, h6, h7, h8, h9, h10⟩ | ⟨hall, -, -⟩
  · exact ⟨r, hr, ((name_ok_iff _ _).1 h1).1, hnum _ _ _ h2,
      ((nonempty_ok_iff _ _ _).1 h3).1, ((nonempty_ok_iff _ _ _).1 h4).1,
      ((ageGroup_ok_iff _ _).1 h5).1, ((investmentRisk_ok_iff _ _).1 h6).1,
      hnum _ _ _ h7, hnum _ _ _ h8, ((nonempty_ok_iff _ _ _).1 h9).1,
      ((nonempty_ok_iff _ _ _).1 h10).1⟩
  · rw [h] at hall
    cases hall

/-- C2, at the input of the end-to-end example: every rule holds, the theorem applies, and
the record is the input with `grossSalary = 50000`, `monthlyRent = 1000`, `pension = 0`. -/
theorem valid_input_yields_coerced_record_witness :
    allRules exampleInput = true ∧
    (∃ r, zodResolver formSchema exampleInput = ⟨some r, []⟩ ∧
      exampleInput.name = some r.name ∧
      (∃ text, exampleInput.grossSalary = some text ∧ r.grossSalary = Number (.string text)) ∧
      exampleInput.city = some r.city ∧
      exampleInput.state = some r.state ∧
      exampleInput.ageGroup = some r.ageGroup ∧
      exampleInput.investmentRisk = some r.investmentRisk ∧
      (∃ text, exampleInput.monthlyRent = some text ∧ r.monthlyRent = Number (.string text)) ∧
      (∃ text, exampleInput.pension = some text ∧ r.pension = Number (.string text)) ∧
      exampleInput.investmentSpecific = some r.investmentSpecific ∧
      exampleInput.financialCondition = some r.financialCondition) ∧
    zodResolver formSchema exampleInput =
      ⟨some ⟨"Jo", .fin false 50000 1, "X", "Y", "0-60", "Low", .fin false 1000 1,
        .fin false 0 1, "stocks", "stable"⟩, []⟩ :=
  ⟨by decide, valid_input_yields_coerced_record exampleInput (by decide), by decide⟩

/-- C5. The key set of the error mapping is exactly the set of fields whose own rule
fails: a key is reported exactly when it is one of the ten keys and its field fails its
rule, so every failing field is reported in the same result and no passing field is; the
entry under a key is the same for any two inputs that agree on that key; and an input
whose only failing field is `grossSalary` yields the single key `grossSalary`. -/
theorem error_keys_are_failing_fields (data : FormInput) :
    (∀ key : String, key ∈ (zodResolver formSchema data).errors.map Prod.fst ↔
      key ∈ fieldNames ∧ fieldRule key (data.get key) = false) ∧
    (∀ (other : FormInput) (key : String), other.get key = data.get key →
      (zodResolver formSchema other).errors.lookup key =
        (zodResolver formSchema data).errors.lookup key) ∧
    (numericRule data.grossSalary = false → nameRule data.name = true →
      requiredRule data.city = true → requiredRule data.state = true →
      ageGroupRule data.ageGroup = true → investmentRiskRule data.investmentRisk = true →
      numericRule data.monthlyRent = true → numericRule data.pension = true →
      requiredRule data.investmentSpecific = true →
      requiredRule data.financialCondition = true →
      (zodResolver formSchema data).errors.map Prod.fst = ["grossSalary"]) := by
  refine ⟨mem_keys_errors data, ?_, ?_⟩
  · intro other key hkey
    rw [lookup_errors, lookup_errors, hkey]
  · intro h1 h2 h3 h4 h5 h6 h7 h8 h9 h10
    rw [keys_errors]
    simp [reportOrder, List.filter_cons, fieldRule, FormInput.get, h1, h2, h3, h4, h5, h6, h7,
      h8, h9, h10]

/-- C5, at the example input with `grossSalary` set to `-5`: the error mapping has the
single key `grossSalary`. -/
theorem error_keys_are_failing_fields_witness :
    (zodResolver formSchema { exampleInput with grossSalary := some "-5" }).errors.map Prod.fst =
      ["grossSalary"] :=
  (error_keys_are_failing_fields { exampleInput with grossSalary := some "-5" }).2.2
    (by decide) (by decide) (by decide) (by decide) (by decide) (by decide) (by decide)
    (by decide) (by decide) (by decide)

/-- C6. The `ageGroup` schema accepts a string exactly when it is one of `0-60`, `60-80`,
`80+`, and the `investmentRisk` schema exactly when it is one of `Low`, `Medium`, `High`;
in an input, any other text in one of these fields puts that field in the error mapping.
The empty option value and `low` are rejected. -/
theorem enum_rules_accept_exactly_literals (s : String) :
    ((∃ a, formSchema.ageGroup (.string s) = .ok a) ↔ (s = "0-60" ∨ s = "60-80" ∨ s = "80+")) ∧
    ((∃ a, formSchema.investmentRisk (.string s) = .ok a) ↔
      (s = "Low" ∨ s = "Medium" ∨ s = "High")) ∧
    (∀ data : FormInput, data.ageGroup = some s →
      ("ageGroup" ∈ (zodResolver formSchema data).errors.map Prod.fst ↔
        ¬ (s = "0-60" ∨ s = "60-80" ∨ s = "80+"))) ∧
    (∀ data : FormInput, data.investmentRisk = some s →
      ("investmentRisk" ∈ (zodResolver formSchema data).errors.map Prod.fst ↔
        ¬ (s = "Low" ∨ s = "Medium" ∨ s = "High"))) ∧
    (∃ issue, formSchema.ageGroup (.string "") = .error issue) ∧
    (∃ issue, formSchema.investmentRisk (.string "") = .error issue) ∧
    (∃ issue, formSchema.investmentRisk (.string "low") = .error issue) := by
  refine ⟨?_, ?_, ?_, ?_, ⟨_, rfl⟩, ⟨_, rfl⟩, ⟨_, rfl⟩⟩
  · have := ageGroup_parses (some s)
    simpa [fieldValue, ageGroupRule] using this
  · have := investmentRisk_parses (some s)
    simpa [fieldValue, investmentRiskRule] using this
  · intro data hs
    rw [keys_errors]
    simp [reportOrder, fieldRule, FormInput.get, hs, ageGroupRule]
  · intro data hs
    rw [keys_errors]
    simp [reportOrder, fieldRule, FormInput.get, hs, investmentRiskRule]

theorem trimStrWhiteSpace_blank (cs : List Char)
    (h : ∀ c ∈ cs, isStrWhiteSpaceChar c = true) : trimStrWhiteSpace cs = [] := by
  have h1 : cs.dropWhile isStrWhiteSpaceChar = [] := List.dropWhile_eq_nil_iff.2 h
  simp [trimStrWhiteSpace, h1]

theorem Number_blank (text : String)
    (h : ∀ c ∈ text.data, isStrWhiteSpaceChar c = true) :
    Number (.string text) = .fin false 0 1 := by
  simp [Number, StringToNumber, trimStrWhiteSpace_blank _ h]

theorem values_none_of_rule_false (data : FormInput) (h : allRules data = false) :
    (zodResolver formSchema data).values = none := by
  rcases resolver_cases data with ⟨hall, -⟩ | ⟨-, hv, -⟩
  · rw [h] at hall
    cases hall
  · exact hv

theorem fieldIssue_message (key : String) (v : Option String) (issue : IssueData)
    (h : fieldIssue key v = some issue) :
    issue.message =
      if key = "ageGroup" ∨ key = "investmentRisk" then configuredMessage key
      else if key = "grossSalary" ∨ key = "monthlyRent" ∨ key = "pension" then
        (if (Number (fieldValue v)).isNaN then "Expected number, received nan"
          else configuredMessage key)
      else if v = none then "Required"
      else configuredMessage key := by
  have hstr : ∀ (n : Nat) (message : String),
      issueOf ((z.string.min n message) (fieldValue v)) = some issue →
      issue.message = if v = none then "Required" else message := by
    intro n message hi
    rw [string_min_eval] at hi
    cases v with
    | none =>
      simp only [issueOf, Option.some.injEq] at hi
      simp [← hi]
    | some text =>
      by_cases hlen : jsLength text < n
      · simp only [hlen, if_true, issueOf, Option.some.injEq] at hi
        simp [← hi]
      · simp [hlen, issueOf] at hi
  have hnum : ∀ (message : String),
      issueOf ((z.preprocess (fun val => .number (Number val)) (z.number.nonnegative message))
        (fieldValue v)) = some issue →
      issue.message = if (Number (fieldValue v)).isNaN then "Expected number, received nan"
        else message := by
    intro message hi
    rw [numeric_eval] at hi
    cases hn : (Number (fieldValue v)).isNaN
    · cases hz : (Number (fieldValue v)).ltZero
      · simp [hn, hz, issueOf] at hi
      · simp [hn, hz, issueOf] at hi
        simp [← hi]
    · simp [hn, issueOf] at hi
      simp [← hi]
  have henum : ∀ (values : List String) (message : String),
      issueOf ((z.enum values message) (fieldValue v)) = some issue →
      issue.message = message := by
    intro values message hi
    rw [enum_eval] at hi
    cases v with
    | none =>
      simp only [issueOf, Option.some.injEq] at hi
      simp [← hi]
    | some text =>
      by_cases hmem : text ∈ values
      · simp [hmem, issueOf] at hi
      · simp only [hmem, if_false, issueOf, Option.some.injEq] at hi
        simp [← hi]
  unfold fieldIssue at h
  by_cases h1 : key = "name"
  · subst h1
    simpa [configuredMessage] using hstr 2 _ h
  by_cases h2 : key = "grossSalary"
  · subst h2
    simpa [configuredMessage] using hnum _ h
  by_cases h3 : key = "city"
  · subst h3
    simpa [configuredMessage] using hstr 1 _ h
  by_cases h4 : key = "state"
  · subst h4
    simpa [configuredMessage] using hstr 1 _ h
  by_cases h5 : key = "ageGroup"
  · subst h5
    simpa [configuredMessage] using henum _ _ h
  by_cases h6 : key = "investmentRisk"
  · subst h6
    simpa [configuredMessage] using henum _ _ h
  by_cases h7 : key = "monthlyRent"
  · subst h7
    simpa [configuredMessage] using hnum _ h
  by_cases h8 : key = "pension"
  · subst h8
    simpa [configuredMessage] using hnum _ h
  by_cases h9 : key = "investmentSpecific"
  · subst h9
    simpa [configuredMessage] using hstr 1 _ h
  by_cases h10 : key = "financialCondition"
  · subst h10
    simpa [configuredMessage] using hstr 1 _ h
  simp [h1, h2, h3, h4, h5, h6, h7, h8, h9, h10] at h

/-- C3, as stated, fails on blank text: `Number` turns the empty string and
whitespace-only text into `0`, not `NaN`, so the example input with `grossSalary` emptied
validates, with `grossSalary = 0` in the record. -/
theorem blank_numeric_text_accepted :
    Number (.string "") = .fin false 0 1 ∧
    Number (.string "   ") = .fin false 0 1 ∧
    zodResolver formSchema { exampleInput with grossSalary := some "" } =
      ⟨some ⟨"Jo", .fin false 0 1, "X", "Y", "0-60", "Low", .fin false 1000 1,
        .fin false 0 1, "stocks", "stable"⟩, []⟩ := by
  decide

/-- C3, amended. For a numeric key (`grossSalary`, `monthlyRent`, `pension`): when
`Number` of the field's value is `NaN` (as for a missing value) or below zero, validation
produces no record and reports that key; when the field holds only white space (the empty
string included), `Number` gives `0` and the key is not reported. -/
theorem numeric_field_rejected_when_nan_or_negative (data : FormInput) (key : String)
    (hkey : key = "grossSalary" ∨ key = "monthlyRent" ∨ key = "pension") :
    ((Number (fieldValue (data.get key))).isNaN = true ∨
        (Number (fieldValue (data.get key))).ltZero = true →
      (zodResolver formSchema data).values = none ∧
        key ∈ (zodResolver formSchema data).errors.map Prod.fst) ∧
    (∀ text, data.get key = some text → (∀ c ∈ text.data, isStrWhiteSpaceChar c = true) →
      Number (.string text) = .fin false 0 1 ∧
        key ∉ (zodResolver formSchema data).errors.map Prod.fst) := by
  have hrule : fieldRule key (data.get key) = numericRule (data.get key) := by
    rcases hkey with rfl | rfl | rfl <;> simp [fieldRule]
  have hmem : key ∈ reportOrder := by
    rcases hkey with rfl | rfl | rfl <;> simp [reportOrder]
  have hall : numericRule (data.get key) = false → allRules data = false := by
    intro hf
    rcases hkey with rfl | rfl | rfl <;> simp only [FormInput.get] at hf <;>
      simp at hf <;> simp [allRules, hf]
  constructor
  · intro hbad
    have hf : numericRule (data.get key) = false := by
      unfold numericRule
      rcases hbad with hb | hb <;> simp [hb]
    refine ⟨values_none_of_rule_false data (hall hf), ?_⟩
    rw [keys_errors, List.mem_filter]
    exact ⟨hmem, by simp [hrule, hf]⟩
  · intro text htext hblank
    have hzero := Number_blank text hblank
    refine ⟨hzero, ?_⟩
    rw [keys_errors, List.mem_filter]
    have ht : numericRule (some text) = true := by
      simp [numericRule, fieldValue, hzero, JSNumber.isNaN, JSNumber.ltZero]
    rw [htext] at hrule
    simp [htext, hrule, ht]

/-- C3, amended, at the example input with `grossSalary` set to `abc` (a `NaN`): no record,
`grossSalary` reported. -/
theorem numeric_field_rejected_when_nan_or_negative_witness :
    (Number (fieldValue (({ exampleInput with grossSalary := some "abc" } : FormInput).get
        "grossSalary"))).isNaN = true ∧
    (zodResolver formSchema { exampleInput with grossSalary := some "abc" }).values = none ∧
    "grossSalary" ∈
      (zodResolver formSchema { exampleInput with grossSalary := some "abc" }).errors.map
        Prod.fst :=
  ⟨by decide,
    (numeric_field_rejected_when_nan_or_negative
      { exampleInput with grossSalary := some "abc" } "grossSalary" (Or.inl rfl)).1
      (Or.inl (by decide))⟩

/-- C4, as stated, fails for a missing name: the message under `name` is then `Required`,
not the 2-character message. -/
theorem missing_name_message :
    errorMessage (zodResolver formSchema { exampleInput with name := none }).errors "name" =
      some "Required" ∧
    errorMessage (zodResolver formSchema { exampleInput with name := none }).errors "name" ≠
      some "Name must be at least 2 characters." := by
  decide

/-- C4, amended. When `name` is missing or is a string of length below 2, validation
produces no record and reports `name`; the message is the 2-character message when `name`
is a string, and `Required` when it is missing. -/
theorem short_or_missing_name_rejected (data : FormInput)
    (h : data.name = none ∨ ∃ s, data.name = some s ∧ jsLength s < 2) :
    (zodResolver formSchema data).values = none ∧
    (∀ s, data.name = some s →
      errorMessage (zodResolver formSchema data).errors "name" =
        some "Name must be at least 2 characters.") ∧
    (data.name = none →
      errorMessage (zodResolver formSchema data).errors "name" = some "Required") := by
  have hrule : nameRule data.name = false := by
    rcases h with h | ⟨s, hs, hlen⟩
    · simp [h, nameRule]
    · have : ¬ 2 ≤ jsLength s := by omega
      simp [hs, nameRule, this]
  have hmsg : errorMessage (zodResolver formSchema data).errors "name" =
      (issueOf (formSchema.name (fieldValue data.name))).map IssueData.message := by
    unfold errorMessage
    rw [lookup_errors]
    simp [fieldIssue, FormInput.get]
    rfl
  refine ⟨values_none_of_rule_false data (by simp [allRules, hrule]), ?_, ?_⟩
  · intro s hs
    rcases h with h | ⟨s', hs', hlen⟩
    · rw [h] at hs
      cases hs
    · rw [hmsg, hs']
      simp only [formSchema, string_min_eval, hlen, if_true, issueOf, Option.map_some']
  · intro hnone
    rw [hmsg, hnone]
    rfl

/-- C4, amended, at the example input with `name` set to `J`. -/
theorem short_or_missing_name_rejected_witness :
    (zodResolver formSchema { exampleInput with name := some "J" }).values = none ∧
    errorMessage (zodResolver formSchema { exampleInput with name := some "J" }).errors "name" =
      some "Name must be at least 2 characters." :=
  ⟨(short_or_missing_name_rejected { exampleInput with name := some "J" }
      (Or.inr ⟨"J", rfl, by decide⟩)).1,
    (short_or_missing_name_rejected { exampleInput with name := some "J" }
      (Or.inr ⟨"J", rfl, by decide⟩)).2.1 "J" rfl⟩

/-- C9, as stated, fails for a numeric field holding non-numeric text: the message under
`grossSalary` is then `Expected number, received nan`, not the configured one. -/
theorem nan_message_not_configured :
    errorMessage (zodResolver formSchema { exampleInput with grossSalary := some "abc" }).errors
      "grossSalary" = some "Expected number, received nan" ∧
    errorMessage (zodResolver formSchema { exampleInput with grossSalary := some "abc" }).errors
      "grossSalary" ≠ some (configuredMessage "grossSalary") := by
  decide

/-- C9, amended. Every reported message is determined by the key and that key's own
value: for `ageGroup` and `investmentRisk` it is always the configured message; for
`grossSalary`, `monthlyRent` and `pension` it is the configured message when `Number` of
the value is a number and `Expected number, received nan` when it is `NaN`; for the five
text fields it is the configured message when the value is present and `Required` when it
is missing. -/
theorem reported_message_source (data : FormInput) (key m : String)
    (h : errorMessage (zodResolver formSchema data).errors key = some m) :
    m =
      if key = "ageGroup" ∨ key = "investmentRisk" then configuredMessage key
      else if key = "grossSalary" ∨ key = "monthlyRent" ∨ key = "pension" then
        (if (Number (fieldValue (data.get key))).isNaN then "Expected number, received nan"
          else configuredMessage key)
      else if data.get key = none then "Required"
      else configuredMessage key := by
  unfold errorMessage at h
  rw [lookup_errors] at h
  cases hi : fieldIssue key (data.get key) with
  | none => simp [hi] at h
  | some issue =>
    simp only [hi, Option.map_some', Option.some.injEq] at h
    rw [← h]
    exact fieldIssue_message key _ issue hi

/-- C9, amended, at the example input with `name` set to `J`: the message under `name` is
the one configured on the `name` rule. -/
theorem reported_message_source_witness :
    errorMessage (zodResolver formSchema { exampleInput with name := some "J" }).errors "name" =
      some "Name must be at least 2 characters." ∧
    "Name must be at least 2 characters." = configuredMessage "name" :=
  ⟨by decide,
    (reported_message_source { exampleInput with name := some "J" } "name"
      "Name must be at least 2 characters." (by decide)).trans (by decide)⟩

/-! ## The submit workflow -/

theorem foldl_run (due : List (Nat × TimerCallback)) (s : AppState) :
    due.foldl (fun acc timer => timer.2.run acc) s =
      if due = [] then s else setIsLoading false s := by
  induction due generalizing s with
  | nil => rfl
  | cons timer rest ih =>
    rcases timer with ⟨t, cb⟩
    cases cb
    rw [List.foldl_cons, ih]
    by_cases h : rest = []
    · simp [h, TimerCallback.run]
    · simp [h, TimerCallback.run, setIsLoading]

theorem advanceTo_eq (s : AppState) (t : Nat) :
    s.advanceTo t =
      { now := max s.now t
        isLoading := if s.timers.filter (fun timer => timer.1 ≤ t) = [] then s.isLoading
          else false
        toasts := s.toasts
        timers := s.timers.filter fun timer => t < timer.1
        errors := s.errors } := by
  unfold AppState.advanceTo
  simp only [foldl_run]
  by_cases h : s.timers.filter (fun timer => timer.1 ≤ t) = []
  · simp [h]
  · simp [h, setIsLoading]

theorem submit_valid (s : AppState) (data : FormInput) (h : allRules data = true) :
    step s (.submit data) =
      { now := s.now
        isLoading := true
        toasts := s.toasts ++ ["Form submitted successfully!"]
        timers := s.timers ++ [(s.now + 5000, .setIsLoadingFalse)]
        errors := [] } := by
  rcases resolver_cases data with ⟨-, r, hr, -⟩ | ⟨hall, -, -⟩
  · simp [step, handleSubmit, hr, onSubmit, setTimeout, setIsLoading, toast]
  · rw [h] at hall
    cases hall

theorem submit_invalid (s : AppState) (data : FormInput) (h : allRules data = false) :
    step s (.submit data) = { s with errors := (zodResolver formSchema data).errors } := by
  rcases resolver_cases data with ⟨hall, -⟩ | ⟨-, hv, he⟩
  · rw [h] at hall
    cases hall
  · simp only [step, handleSubmit, hv]
    split
    · rename_i heq _
      exact absurd heq he
    · rfl

/-- C7. A submit whose input fails validation leaves the flag, the emitted
notifications, the pending timers and the clock as they were; so a submit that takes the
controller from Idle to Submitting is one whose validation succeeded. -/
theorem invalid_submit_changes_nothing (s : AppState) (data : FormInput) :
    (allRules data = false →
      (step s (.submit data)).isLoading = s.isLoading ∧
      (step s (.submit data)).toasts = s.toasts ∧
      (step s (.submit data)).timers = s.timers ∧
      (step s (.submit data)).now = s.now) ∧
    (s.isLoading = false → (step s (.submit data)).isLoading = true →
      allRules data = true) := by
  constructor
  · intro h
    rw [submit_invalid s data h]
    exact ⟨rfl, rfl, rfl, rfl⟩
  · intro hidle hsub
    cases hall : allRules data with
    | true => rfl
    | false =>
      rw [submit_invalid s data hall] at hsub
      simp [hidle] at hsub

/-- C7, at a submit with `name` set to `J` on the freshly mounted form: the controller
stays Idle, with no notification and no timer. -/
theorem invalid_submit_changes_nothing_witness :
    allRules { exampleInput with name := some "J" } = false ∧
    (step AppState.init (.submit { exampleInput with name := some "J" })).isLoading = false ∧
    (step AppState.init (.submit { exampleInput with name := some "J" })).toasts = [] ∧
    (step AppState.init (.submit { exampleInput with name := some "J" })).timers = [] ∧
    (step AppState.init (.submit { exampleInput with name := some "J" })).now = 0 :=
  ⟨by decide,
    (invalid_submit_changes_nothing AppState.init
      { exampleInput with name := some "J" }).1 (by decide)⟩

/-- C8, as stated, fails in an Idle state that still has a timer pending: after valid
submits at 0 ms and 1000 ms the controller is Idle at 5500 ms with the second timer
pending; a valid submit then makes it Submitting, and 500 ms later (at 6000 ms) that
older timer has set it back to Idle. -/
theorem idle_submit_window_cut_short :
    (run AppState.init
      [.submit exampleInput, .wait 1000, .submit exampleInput, .wait 4500]).isLoading = false ∧
    (run AppState.init
      [.submit exampleInput, .wait 1000, .submit exampleInput, .wait 4500]).now = 5500 ∧
    (run AppState.init
      [.submit exampleInput, .wait 1000, .submit exampleInput, .wait 4500,
        .submit exampleInput]).isLoading = true ∧
    (run AppState.init
      [.submit exampleInput, .wait 1000, .submit exampleInput, .wait 4500,
        .submit exampleInput, .wait 500]).now = 6000 ∧
    (run AppState.init
      [.submit exampleInput, .wait 1000, .submit exampleInput, .wait 4500,
        .submit exampleInput, .wait 500]).isLoading = false := by
  decide

/-- C8, amended. A submit with a valid input emits exactly one confirmation
notification, sets `isLoading` to true and schedules exactly one timer, due 5000 ms later,
whose callback sets `isLoading` to false whatever the state; from then on, with no other
submit, the controller is Idle at every time from 5000 ms after the submit; and if no
timer of an earlier submit falls due inside the window, it is Submitting at every time
before that. -/
theorem valid_submit_workflow (s : AppState) (data : FormInput) (h : allRules data = true) :
    (step s (.submit data)).toasts = s.toasts ++ ["Form submitted successfully!"] ∧
    (step s (.submit data)).isLoading = true ∧
    (step s (.submit data)).timers = s.timers ++ [(s.now + 5000, .setIsLoadingFalse)] ∧
    (∀ st : AppState, (TimerCallback.setIsLoadingFalse.run st).isLoading = false) ∧
    (∀ t, s.now + 5000 ≤ t → ((step s (.submit data)).advanceTo t).isLoading = false) ∧
    ((∀ timer ∈ s.timers, s.now + 5000 ≤ timer.1) →
      ∀ t, t < s.now + 5000 → ((step s (.submit data)).advanceTo t).isLoading = true) := by
  rw [submit_valid s data h]
  refine ⟨rfl, rfl, rfl, fun _ => rfl, ?_, ?_⟩
  · intro t ht
    rw [advanceTo_eq]
    have hne : (s.timers ++ [(s.now + 5000, TimerCallback.setIsLoadingFalse)]).filter
        (fun timer => timer.1 ≤ t) ≠ [] := by
      intro hnil
      have hmem : (s.now + 5000, TimerCallback.setIsLoadingFalse) ∈
          (s.timers ++ [(s.now + 5000, TimerCallback.setIsLoadingFalse)]).filter
            (fun timer => timer.1 ≤ t) := by
        simp [List.mem_filter, ht]
      rw [hnil] at hmem
      cases hmem
    simp only [hne, if_false]
  · intro hpending t ht
    rw [advanceTo_eq]
    have hnil : (s.timers ++ [(s.now + 5000, TimerCallback.setIsLoadingFalse)]).filter
        (fun timer => timer.1 ≤ t) = [] := by
      rw [List.filter_eq_nil_iff]
      intro timer hmem
      rw [List.mem_append] at hmem
      rcases hmem with hmem | hmem
      · have := hpending timer hmem
        simp only [decide_eq_true_eq]
        omega
      · simp only [List.mem_singleton] at hmem
        subst hmem
        simp only [decide_eq_true_eq]
        omega
    simp only [hnil, if_true]

/-- C8, amended, at the end-to-end example on the freshly mounted form: one
notification, Submitting with one timer due at 5000 ms, Submitting at 4999 ms and Idle at
5000 ms. -/
theorem valid_submit_workflow_witness :
    allRules exampleInput = true ∧
    (step AppState.init (.submit exampleInput)).toasts = ["Form submitted successfully!"] ∧
    (step AppState.init (.submit exampleInput)).isLoading = true ∧
    (step AppState.init (.submit exampleInput)).timers = [(5000, .setIsLoadingFalse)] ∧
    ((step AppState.init (.submit exampleInput)).advanceTo 5000).isLoading = false ∧
    ((step AppState.init (.submit exampleInput)).advanceTo 4999).isLoading = true :=
  ⟨by decide,
    (valid_submit_workflow AppState.init exampleInput (by decide)).1,
    (valid_submit_workflow AppState.init exampleInput (by decide)).2.1,
    (valid_submit_workflow AppState.init exampleInput (by decide)).2.2.1,
    (valid_submit_workflow AppState.init exampleInput (by decide)).2.2.2.2.1 5000 (by decide),
    (valid_submit_workflow AppState.init exampleInput (by decide)).2.2.2.2.2
      (by intro timer hmem; cases hmem) 4999 (by decide)⟩

theorem wait_eq (s : AppState) (ms : Nat) :
    step s (.wait ms) =
      { now := s.now + ms
        isLoading := if s.timers.filter (fun timer => timer.1 ≤ s.now + ms) = [] then
          s.isLoading else false
        toasts := s.toasts
        timers := s.timers.filter fun timer => s.now + ms < timer.1
        errors := s.errors } := by
  simp [step, advanceTo_eq]

/-- C10. Re-entrant submission is not guarded and timers are never cancelled: after a
valid submit at `t1 = s.now` and a second valid submit `d` ms later (`0 < d < 5000`), two
notifications have been emitted and both timers are pending; at `t1 + 5000`, less than
5000 ms after the second submit, the first timer has fired, the controller is Idle, and
the second timer is still pending.  When no earlier timer was pending, the controller is
Submitting from the first submit until `t1 + 5000`. -/
theorem reentrant_submit (s : AppState) (data1 data2 : FormInput) (d : Nat)
    (h1 : allRules data1 = true) (h2 : allRules data2 = true) (hd : 0 < d) (hd5 : d < 5000) :
    (run s [.submit data1, .wait d, .submit data2]).now = s.now + d ∧
    (run s [.submit data1, .wait d, .submit data2]).toasts =
      s.toasts ++ ["Form submitted successfully!", "Form submitted successfully!"] ∧
    (s.now + 5000, TimerCallback.setIsLoadingFalse) ∈
      (run s [.submit data1, .wait d, .submit data2]).timers ∧
    (s.now + d + 5000, TimerCallback.setIsLoadingFalse) ∈
      (run s [.submit data1, .wait d, .submit data2]).timers ∧
    (run s [.submit data1, .wait d, .submit data2]).isLoading = true ∧
    (run s [.submit data1, .wait d, .submit data2, .wait (5000 - d)]).now = s.now + 5000 ∧
    (run s [.submit data1, .wait d, .submit data2, .wait (5000 - d)]).isLoading = false ∧
    (s.now + d + 5000, TimerCallback.setIsLoadingFalse) ∈
      (run s [.submit data1, .wait d, .submit data2, .wait (5000 - d)]).timers ∧
    (s.now + 5000, TimerCallback.setIsLoadingFalse) ∉
      (run s [.submit data1, .wait d, .submit data2, .wait (5000 - d)]).timers ∧
    (run s [.submit data1, .wait d, .submit data2, .wait (5000 - d)]).now -
      (run s [.submit data1, .wait d, .submit data2]).now < 5000 ∧
    (s.timers = [] →
      (run s [.submit data1, .wait d]).isLoading = true ∧
      (run s [.submit data1, .wait d, .submit data2]).timers =
        [(s.now + 5000, .setIsLoadingFalse), (s.now + d + 5000, .setIsLoadingFalse)] ∧
      (run s [.submit data1, .wait d, .submit data2, .wait (5000 - d)]).timers =
        [(s.now + d + 5000, .setIsLoadingFalse)] ∧
      ∀ t, t < s.now + 5000 →
        ((run s [.submit data1, .wait d, .submit data2]).advanceTo t).isLoading = true) := by
  have e1 : s.now + d + (5000 - d) = s.now + 5000 := by omega
  have hrun2 : run s [.submit data1, .wait d, .submit data2] =
      step (step (step s (.submit data1)) (.wait d)) (.submit data2) := rfl
  have hrun3 : run s [.submit data1, .wait d, .submit data2, .wait (5000 - d)] =
      step (step (step (step s (.submit data1)) (.wait d)) (.submit data2))
        (.wait (5000 - d)) := rfl
  have hrun1 : run s [.submit data1, .wait d] = step (step s (.submit data1)) (.wait d) := rfl
  rw [hrun1, hrun2, hrun3, submit_valid s data1 h1, wait_eq, submit_valid _ data2 h2, wait_eq]
  have hfirst : (s.now + 5000, TimerCallback.setIsLoadingFalse) ∈
      (s.timers ++ [(s.now + 5000, TimerCallback.setIsLoadingFalse)]).filter
        (fun timer => s.now + d < timer.1) := by
    simp [List.mem_filter, hd5]
  have hdue : ((s.timers ++ [(s.now + 5000, TimerCallback.setIsLoadingFalse)]).filter
        (fun timer => s.now + d < timer.1) ++
          [(s.now + d + 5000, TimerCallback.setIsLoadingFalse)]).filter
        (fun timer => timer.1 ≤ s.now + 5000) ≠ [] := by
    intro hnil
    have hmem : (s.now + 5000, TimerCallback.setIsLoadingFalse) ∈
        ((s.timers ++ [(s.now + 5000, TimerCallback.setIsLoadingFalse)]).filter
          (fun timer => s.now + d < timer.1) ++
            [(s.now + d + 5000, TimerCallback.setIsLoadingFalse)]).filter
          (fun timer => timer.1 ≤ s.now + 5000) := by
      rw [List.mem_filter]
      exact ⟨List.mem_append_left _ hfirst, by simp⟩
    rw [hnil] at hmem
    cases hmem
  refine ⟨?_, ?_, ?_, ?_, ?_, ?_, ?_, ?_, ?_, ?_, ?_⟩
  · rfl
  · simp
  · exact List.mem_append_left _ hfirst
  · simp
  · rfl
  · exact e1
  · simp only [e1, hdue, if_false]
  · simp [e1, List.mem_filter, hd]
  · simp [e1, List.mem_filter]
  · simp only [e1]
    omega
  · intro hnone
    have hlt : s.now + d < s.now + 5000 := by omega
    have hle : ¬ s.now + 5000 ≤ s.now + d := by omega
    refine ⟨?_, ?_, ?_, ?_⟩
    · simp [hnone, List.filter, hle]
    · simp [hnone, List.filter, hlt]
    · simp [e1, hnone, List.filter, hlt, hd]
    · intro t ht
      rw [advanceTo_eq]
      have hl : ¬ s.now + 5000 ≤ t := by omega
      have hl2 : ¬ s.now + d + 5000 ≤ t := by omega
      simp [hnone, List.filter, hlt, hl, hl2]

/-- C10, on the freshly mounted form with valid submits at 0 ms and 1000 ms: two
notifications, and at 5000 ms (4000 ms after the second submit) the controller is Idle
with the timer due at 6000 ms still pending. -/
theorem reentrant_submit_witness :
    allRules exampleInput = true ∧ 0 < 1000 ∧ 1000 < 5000 ∧
    (run AppState.init [.submit exampleInput, .wait 1000, .submit exampleInput]).toasts =
      ["Form submitted successfully!", "Form submitted successfully!"] ∧
    (run AppState.init
      [.submit exampleInput, .wait 1000, .submit exampleInput, .wait 4000]).isLoading = false ∧
    (6000, TimerCallback.setIsLoadingFalse) ∈
      (run AppState.init
        [.submit exampleInput, .wait 1000, .submit exampleInput, .wait 4000]).timers :=
  ⟨by decide, by decide, by decide,
    (reentrant_submit AppState.init exampleInput exampleInput 1000 (by decide) (by decide)
      (by decide) (by decide)).2.1,
    (reentrant_submit AppState.init exampleInput exampleInput 1000 (by decide) (by decide)
      (by decide) (by decide)).2.2.2.2.2.2.1,
    (reentrant_submit AppState.init exampleInput exampleInput 1000 (by decide) (by decide)
      (by decide) (by decide)).2.2.2.2.2.2.2.1⟩

end TaxForm
